import Mathlib

/-!
# Email classifier front-end: upload / text input / result state flow

A shallow embedding of the front-end of the email classifier:

* `components/EmailUploader.tsx`  : `validateFile`, `handleFile`, `handleDrop`, `handleFileInput`
* `components/EmailTextInput.jsx` : `handleChange`, `isNearLimit`, `isAtLimit`, counter classes
* `lib/api.js`                    : `classifyEmailFromFile`, `classifyEmailFromText`
* `App.jsx`                       : the six `useState` slots and the handlers over them

React state is explicit state passing: a handler is a function from the state of the render in
which it was created to the state after its setters have been applied.  An `async` handler is
run to completion against an explicit description of how the network answers.
-/

namespace EmailClassifier

/-! ## JavaScript string primitives -/

/-- Number of UTF-16 code units a character occupies; the `length` of a JavaScript string counts
code units, so a character outside the Basic Multilingual Plane counts twice. -/
def utf16Units (c : Char) : Nat :=
  if c.toNat < 0x10000 then 1 else 2

/-- The `length` property of a JavaScript string. -/
def jsLength (s : String) : Nat :=
  (s.data.map utf16Units).sum

/-- The ECMAScript `WhiteSpace` and `LineTerminator` code points, the ones `trim` strips. -/
def isJsWhiteSpace (c : Char) : Bool :=
  let n := c.toNat
  n = 0x09 || n = 0x0A || n = 0x0B || n = 0x0C || n = 0x0D || n = 0x20 || n = 0xA0 ||
  n = 0x1680 || (0x2000 ≤ n && n ≤ 0x200A) || n = 0x2028 || n = 0x2029 || n = 0x202F ||
  n = 0x205F || n = 0x3000 || n = 0xFEFF

/-- The method `String.prototype.trim`: white space removed from both ends. -/
def jsTrim (s : String) : String :=
  ⟨((s.data.dropWhile isJsWhiteSpace).reverse.dropWhile isJsWhiteSpace).reverse⟩

/-- The method `String.prototype.toLowerCase`, on the letters `A`..`Z`.  Other characters are
left as they are: no character outside `A`..`Z` lower-cases to one of the letters of the accepted
extensions, so membership of the lower-cased extension in `ACCEPTED_TYPES` is not affected. -/
def jsToLowerCase (s : String) : String :=
  ⟨s.data.map Char.toLower⟩

/-- The segments of `s.split(".")` as character lists; the result is never empty
(`"".split(".")` is `[""]`). -/
def splitDot : List Char → List (List Char)
  | [] => [[]]
  | c :: cs =>
    if c = '.' then [] :: splitDot cs
    else
      match splitDot cs with
      | [] => [[c]]
      | seg :: rest => (c :: seg) :: rest

/-- The call `s.split(".")`. -/
def jsSplitDot (s : String) : List String :=
  (splitDot s.data).map String.mk

/-- JavaScript truthiness of a value that is `null` or a string: only `null` and `""` are falsy. -/
def truthy : Option String → Bool
  | none => false
  | some s => s != ""

/-- The expression `a || b` on strings: `a` when it is truthy (non-empty), else `b`. -/
def jsOr (a b : String) : String :=
  if a != "" then a else b

/-! ## `components/EmailUploader.tsx` -/

/-- The part of a DOM `File` the front-end reads: its name and its size in bytes. -/
structure File where
  name : String
  size : Nat
deriving DecidableEq, Repr

def MAX_FILE_SIZE : Nat := 10 * 1024 * 1024

def ACCEPTED_TYPES : List String := [".txt", ".pdf"]

/-- The expression `"." + file.name.split(".").pop()?.toLowerCase()`.  `pop()` on an empty array
would give `undefined` and the concatenation `".undefined"`. -/
def fileExtension (file : File) : String :=
  match (jsSplitDot file.name).getLast? with
  | some seg => "." ++ jsToLowerCase seg
  | none => ".undefined"

/-- The function `validateFile`: `none` is `null` (no error), `some msg` the error message. -/
def validateFile (file : File) : Option String :=
  if !(ACCEPTED_TYPES.contains (fileExtension file)) then
    some ("Tipo de arquivo não suportado. Use apenas " ++ " ou ".intercalate ACCEPTED_TYPES)
  else if file.size > MAX_FILE_SIZE then
    some ("Arquivo muito grande. Tamanho máximo: " ++ toString (MAX_FILE_SIZE / 1024 / 1024) ++ "MB")
  else
    none

/-- The local state of `EmailUploader`. -/
structure UploaderState where
  isDragging : Bool
  error : Option String
deriving DecidableEq, Repr

/-- The callback `handleFile`; `onFileSelect` is the prop, acting on the parent state `σ`. -/
def handleFile {σ : Type} (onFileSelect : File → σ → σ) (file : File)
    (u : UploaderState) (parent : σ) : UploaderState × σ :=
  let u := { u with error := none }
  let validationError := validateFile file
  if truthy validationError then
    ({ u with error := validationError }, parent)
  else
    (u, onFileSelect file parent)

/-- The callback `handleDrop`; `files` is `e.dataTransfer.files`. -/
def handleDrop {σ : Type} (onFileSelect : File → σ → σ) (disabled : Bool) (files : List File)
    (u : UploaderState) (parent : σ) : UploaderState × σ :=
  let u := { u with isDragging := false }
  if disabled then (u, parent)
  else
    match files.head? with
    | some file => handleFile onFileSelect file u parent
    | none => (u, parent)

/-- The callback `handleFileInput`; `files` is `e.target.files`. -/
def handleFileInput {σ : Type} (onFileSelect : File → σ → σ) (files : List File)
    (u : UploaderState) (parent : σ) : UploaderState × σ :=
  match files.head? with
  | some file => handleFile onFileSelect file u parent
  | none => (u, parent)

/-! ## `components/EmailTextInput.jsx` -/

def MAX_CHARACTERS : Nat := 800

/-- The callback `EmailTextInput.handleChange`: `newValue` is `e.target.value`, the first
component of the result is the local `characterCount`. -/
def EmailTextInput.handleChange {σ : Type} (onChange : String → σ → σ) (newValue : String)
    (characterCount : Nat) (parent : σ) : Nat × σ :=
  if jsLength newValue ≤ MAX_CHARACTERS then
    (jsLength newValue, onChange newValue parent)
  else
    (characterCount, parent)

/-- The flag `characterCount > MAX_CHARACTERS * 0.9`.  The double product `800 * 0.9` is exactly
`720`, so the comparison is the exact one `10 * characterCount > 9 * MAX_CHARACTERS`. -/
def isNearLimit (characterCount : Nat) : Bool :=
  decide (10 * characterCount > 9 * MAX_CHARACTERS)

/-- The flag `characterCount >= MAX_CHARACTERS`. -/
def isAtLimit (characterCount : Nat) : Bool :=
  decide (characterCount ≥ MAX_CHARACTERS)

/-- The colour classes the counter passes to `cn` that are not `false`, in argument order. -/
def counterColorClasses (characterCount : Nat) : List String :=
  (if isAtLimit characterCount then ["text-destructive"] else []) ++
  (if isNearLimit characterCount && !isAtLimit characterCount then ["text-amber-600"] else []) ++
  (if !isNearLimit characterCount then ["text-muted-foreground"] else [])

/-! ## `lib/api.js` -/

/-- A parsed JSON value, the result of `response.json()`.  A number is kept as an integer
mantissa and a decimal exponent; the front-end never computes with it. -/
inductive JSON where
  | null : JSON
  | bool (b : Bool) : JSON
  | number (mantissa : Int) (exponent : Int) : JSON
  | string (s : String) : JSON
  | array (items : List JSON) : JSON
  | object (members : List (String × JSON)) : JSON

/-- The test `v === null`. -/
def JSON.isNull : JSON → Bool
  | JSON.null => true
  | _ => false

instance JSON.decEqNull (v : JSON) : Decidable (v = JSON.null) :=
  match v with
  | JSON.null => isTrue rfl
  | JSON.bool _ => isFalse (fun h => JSON.noConfusion h)
  | JSON.number _ _ => isFalse (fun h => JSON.noConfusion h)
  | JSON.string _ => isFalse (fun h => JSON.noConfusion h)
  | JSON.array _ => isFalse (fun h => JSON.noConfusion h)
  | JSON.object _ => isFalse (fun h => JSON.noConfusion h)

/-- A value thrown out of the classification client: the `Error` a rejected `fetch` or
`response.json()` carries (a `message`, no `status`), or the object literal the client builds
itself (`message` and `status`). -/
structure Thrown where
  message : String
  status : Option Nat
deriving DecidableEq, Repr

/-- The body handed to `fetch`: a `FormData` with its appended fields, or the text produced by
`JSON.stringify`, kept as the value that was stringified. -/
inductive Body where
  | formData (fields : List (String × File)) : Body
  | json (value : JSON) : Body

/-- The arguments of one `fetch` call. -/
structure Request where
  url : String
  method : String
  headers : List (String × String)
  body : Body

/-- The part of a `Response` the client reads; `json` is how `response.json()` settles. -/
structure Response where
  ok : Bool
  status : Nat
  statusText : String
  json : Except Thrown JSON

/-- What the client takes from its surroundings: the constant `API_URL` (the configured base
URL with trailing slashes removed) and how `fetch` settles for a request: rejected with an error
or resolved with a response. -/
structure Env where
  API_URL : String
  fetch : Request → Except Thrown Response

/-- The function `classifyEmailFromFile`: `Except.error` is a thrown value. -/
def classifyEmailFromFile (env : Env) (file : File) : Except Thrown JSON :=
  let formData := Body.formData [("file", file)]
  match env.fetch
      { url := env.API_URL ++ "/api/classify", method := "POST", headers := [],
        body := formData } with
  | Except.error e => Except.error e
  | Except.ok response =>
    if !response.ok then
      let error : Thrown :=
        { message := "Erro ao classificar email: " ++ response.statusText,
          status := some response.status }
      Except.error error
    else
      match response.json with
      | Except.error e => Except.error e
      | Except.ok data => Except.ok data

/-- The function `classifyEmailFromText`. -/
def classifyEmailFromText (env : Env) (text : String) : Except Thrown JSON :=
  match env.fetch
      { url := env.API_URL ++ "/api/classify", method := "POST",
        headers := [("Content-Type", "application/json")],
        body := Body.json (JSON.object [("text", JSON.string text)]) } with
  | Except.error e => Except.error e
  | Except.ok response =>
    if !response.ok then
      let error : Thrown :=
        { message := "Erro ao classificar email: " ++ response.statusText,
          status := some response.status }
      Except.error error
    else
      match response.json with
      | Except.error e => Except.error e
      | Except.ok data => Except.ok data

/-! ## `App.jsx` -/

/-- The values of the two `TabsTrigger` elements, `"upload"` and `"text"`. -/
inductive Tab where
  | upload : Tab
  | text : Tab
deriving DecidableEq, Repr

/-- The six `useState` slots of `App`; `JSON.null` in `result` and `none` in `error` are
`null`. -/
structure AppState where
  activeTab : Tab
  selectedFile : Option File
  emailText : String
  isLoading : Bool
  result : JSON
  error : Option String

/-- The arguments of the six `useState` calls. -/
def initialState : AppState :=
  { activeTab := Tab.upload, selectedFile := none, emailText := "", isLoading := false,
    result := JSON.null, error := none }

def handleFileSelect (file : File) (s : AppState) : AppState :=
  { s with selectedFile := some file, error := none, result := JSON.null }

def handleFileClear (s : AppState) : AppState :=
  { s with selectedFile := none, error := none, result := JSON.null }

def handleTextChange (text : String) (s : AppState) : AppState :=
  { s with emailText := text, error := none, result := JSON.null }

/-- The inline handler `(v) => setActiveTab(v)` of `Tabs`. -/
def onValueChange (v : Tab) (s : AppState) : AppState :=
  { s with activeTab := v }

/-- The `catch` block of `handleClassify`. -/
def handleClassifyCatch (err : Thrown) (s : AppState) : AppState :=
  let message :=
    jsOr err.message "Erro ao classificar email. Verifique sua conexão e tente novamente."
  { s with error := some message }

/-- The `try` block of `handleClassify`, with its `catch`: `s0` is the state of the render the
handler closes over (it reads `activeTab`, `selectedFile` and `emailText` there), `s` the state
being updated. -/
def handleClassifyTry (env : Env) (s0 s : AppState) : AppState :=
  match s0.activeTab with
  | Tab.upload =>
    match s0.selectedFile with
    | none =>
      { s with error := some "Por favor, selecione um arquivo antes de classificar.",
               isLoading := false }
    | some selectedFile =>
      match classifyEmailFromFile env selectedFile with
      | Except.ok classification => { s with result := classification }
      | Except.error err => handleClassifyCatch err s
  | Tab.text =>
    if jsTrim s0.emailText = "" then
      { s with error := some "Por favor, insira o texto do email antes de classificar.",
               isLoading := false }
    else
      match classifyEmailFromText env (jsTrim s0.emailText) with
      | Except.ok classification => { s with result := classification }
      | Except.error err => handleClassifyCatch err s

/-- The handler `handleClassify`, run until its promise settles. -/
def handleClassify (env : Env) (s0 : AppState) : AppState :=
  let s := { s0 with error := none }
  let s := { s with result := JSON.null }
  let s := { s with isLoading := true }
  let s := handleClassifyTry env s0 s
  { s with isLoading := false }

def handleNewClassification (s : AppState) : AppState :=
  { s with result := JSON.null, error := none, selectedFile := none, emailText := "" }

/-- The constant `canClassify` of a render. -/
def canClassify (s : AppState) : Bool :=
  if s.activeTab = Tab.upload then s.selectedFile != none
  else decide (jsLength (jsTrim s.emailText) > 0)

/-- The `disabled` prop of the submit button, `!canClassify || isLoading`. -/
def classifyButtonDisabled (s : AppState) : Bool :=
  !canClassify s || s.isLoading

/-- The condition `error && ...` under which the error banner is rendered. -/
def errorBannerShown (s : AppState) : Bool :=
  truthy s.error

/-! ## Sequences of actions

`handleClassify` is one action, taken with the network behaviour it meets.  While its request
is in flight `isLoading` is true, which disables the uploader, the text area and the submit
button; the tab list stays usable, and its handler writes `activeTab` only, a slot the
completion of `handleClassify` neither reads nor writes. -/

/-- One call of an `App` handler. -/
inductive Action where
  | fileSelect (file : File) : Action
  | fileClear : Action
  | textChange (text : String) : Action
  | tabSwitch (v : Tab) : Action
  | classify (env : Env) : Action
  | newClassification : Action

def applyAction (s : AppState) : Action → AppState
  | Action.fileSelect file => handleFileSelect file s
  | Action.fileClear => handleFileClear s
  | Action.textChange text => handleTextChange text s
  | Action.tabSwitch v => onValueChange v s
  | Action.classify env => handleClassify env s
  | Action.newClassification => handleNewClassification s

def runActions (s : AppState) (actions : List Action) : AppState :=
  actions.foldl applyAction s

/-- One event of the rendered page, dispatched to the component that receives it with the props
`App` passes (`onFileSelect={handleFileSelect}`, `onClear={handleFileClear}`,
`onChange={handleTextChange}`, `disabled={isLoading}`).  A file event carries the local state of
the uploader at that moment. -/
inductive Event where
  | drop (u : UploaderState) (files : List File) : Event
  | fileInput (u : UploaderState) (files : List File) : Event
  | clearFile : Event
  | change (candidate : String) : Event
  | tabSwitch (v : Tab) : Event
  | classify (env : Env) : Event
  | newClassification : Event

def step (s : AppState) : Event → AppState
  | Event.drop u files => (handleDrop handleFileSelect s.isLoading files u s).2
  | Event.fileInput u files => (handleFileInput handleFileSelect files u s).2
  | Event.clearFile => handleFileClear s
  | Event.change candidate =>
    (EmailTextInput.handleChange handleTextChange candidate (jsLength s.emailText) s).2
  | Event.tabSwitch v => onValueChange v s
  | Event.classify env => handleClassify env s
  | Event.newClassification => handleNewClassification s

def run (s : AppState) (events : List Event) : AppState :=
  events.foldl step s

/-! ## Requests and sample networks -/

/-- The request `handleClassify` hands to `fetch` from the render `s`, when its guard lets it
call the client: the `fetch` arguments of `classifyEmailFromFile` on the selected file, or those
of `classifyEmailFromText` on the trimmed text. -/
def requestIssued (env : Env) (s : AppState) : Option Request :=
  match s.activeTab with
  | Tab.upload =>
    match s.selectedFile with
    | none => none
    | some selectedFile =>
      some { url := env.API_URL ++ "/api/classify", method := "POST", headers := [],
             body := Body.formData [("file", selectedFile)] }
  | Tab.text =>
    if jsTrim s.emailText = "" then none
    else
      some { url := env.API_URL ++ "/api/classify", method := "POST",
             headers := [("Content-Type", "application/json")],
             body := Body.json (JSON.object [("text", JSON.string (jsTrim s.emailText))]) }

/-- A network on which every `fetch` settles the same way. -/
def constantEnv (outcome : Except Thrown Response) : Env :=
  { API_URL := "http://localhost:8000", fetch := fun _ => outcome }

/-- A network that answers a multipart request carrying one file with status 200 and the JSON
string of that file's name, and rejects every other request. -/
def echoFileNameEnv : Env :=
  { API_URL := "http://localhost:8000",
    fetch := fun req =>
      match req.body with
      | Body.formData [(_, file)] =>
        Except.ok { ok := true, status := 200, statusText := "OK",
                    json := Except.ok (JSON.string file.name) }
      | _ => Except.error { message := "Failed to fetch", status := none } }

/-- A response with status 200 and the given parsed body. -/
def okResponse (data : JSON) : Response :=
  { ok := true, status := 200, statusText := "OK", json := Except.ok data }

/-- A response with a non-success status and no usable body. -/
def failedResponse (status : Nat) (statusText : String) : Response :=
  { ok := false, status := status, statusText := statusText,
    json := Except.error { message := "Unexpected end of JSON input", status := none } }

/-- A classification as the backend sends it. -/
def sampleClassification : JSON :=
  JSON.object [("category", JSON.string "Produtivo"),
               ("suggested_response", JSON.string "Obrigado...")]

/-- The state after picking `notes.txt` (200 bytes) on the upload tab. -/
def fileSelectedState : AppState :=
  runActions initialState [Action.fileSelect ⟨"notes.txt", 200⟩]

/-- The state after switching to the text tab and typing `Oi`. -/
def textEnteredState : AppState :=
  runActions initialState [Action.tabSwitch Tab.text, Action.textChange "Oi"]

/-! ## Lemmas on the string primitives -/

theorem splitDot_ne_nil (cs : List Char) : splitDot cs ≠ [] := by
  induction cs with
  | nil => simp [splitDot]
  | cons c cs ih =>
    unfold splitDot
    split
    · simp
    · split <;> simp

theorem splitDot_append_dot (pre rest : List Char) :
    splitDot (pre ++ '.' :: rest) = splitDot pre ++ splitDot rest := by
  induction pre with
  | nil => simp [splitDot]
  | cons c cs ih =>
    by_cases hc : c = '.'
    · simp [splitDot, hc, ih]
    · have hne := splitDot_ne_nil cs
      cases hsp : splitDot cs with
      | nil => exact absurd hsp hne
      | cons seg segs => simp [splitDot, hc, ih, hsp]

theorem splitDot_of_no_dot (cs : List Char) (h : '.' ∉ cs) : splitDot cs = [cs] := by
  induction cs with
  | nil => simp [splitDot]
  | cons c cs ih =>
    have hc : c ≠ '.' := fun e => h (by simp [e])
    have hcs : '.' ∉ cs := fun e => h (by simp [e])
    simp [splitDot, hc, ih hcs]

/-- The extension `validateFile` computes for a name `stem.ext` whose `ext` has no dot is
`.` followed by `ext` in lower case. -/
theorem fileExtension_of_dot (stem ext : String) (size : Nat) (h : '.' ∉ ext.data) :
    fileExtension ⟨stem ++ "." ++ ext, size⟩ = "." ++ jsToLowerCase ext := by
  have hd : (stem ++ "." ++ ext).data = stem.data ++ '.' :: ext.data := by
    simp [String.data_append]
  simp [fileExtension, jsSplitDot, hd, splitDot_append_dot, splitDot_of_no_dot _ h]

/-- The extension `validateFile` computes for a name without any dot is `.` followed by the
whole name in lower case. -/
theorem fileExtension_of_dotless (name : String) (size : Nat) (h : '.' ∉ name.data) :
    fileExtension ⟨name, size⟩ = "." ++ jsToLowerCase name := by
  simp [fileExtension, jsSplitDot, splitDot_of_no_dot _ h]

theorem length_le_jsLength (s : String) : s.length ≤ jsLength s := by
  have key : ∀ cs : List Char, cs.length ≤ (cs.map utf16Units).sum := by
    intro cs
    induction cs with
    | nil => simp
    | cons c cs ih =>
      have hc : 1 ≤ utf16Units c := by
        unfold utf16Units
        split <;> omega
      simp only [List.length_cons, List.map_cons, List.sum_cons]
      omega
  exact key s.data

theorem validateFile_of_bad_extension (file : File)
    (h : fileExtension file ≠ ".txt" ∧ fileExtension file ≠ ".pdf") :
    validateFile file = some "Tipo de arquivo não suportado. Use apenas .txt ou .pdf" := by
  have hmsg : "Tipo de arquivo não suportado. Use apenas " ++ " ou ".intercalate ACCEPTED_TYPES
      = "Tipo de arquivo não suportado. Use apenas .txt ou .pdf" := by decide
  simp [validateFile, ACCEPTED_TYPES, h.1, h.2]
  exact hmsg

/-- C1, the code at the failing input: the name `txt` has no dot and does not end in `.txt` or
`.pdf`, yet `validateFile` returns `null` for it, `handleFile` sets no inline error and calls
`onFileSelect`, the file becomes `selectedFile`, and `handleClassify` passes it to
`classifyEmailFromFile`, which sends it in the `file` field of the request. -/
theorem validateFile_accepts_dotless_txt :
    ¬ List.IsSuffix ".txt".data (jsToLowerCase "txt").data ∧
    ¬ List.IsSuffix ".pdf".data (jsToLowerCase "txt").data ∧
    validateFile ⟨"txt", 0⟩ = none ∧
    (handleFile handleFileSelect ⟨"txt", 0⟩ ⟨false, none⟩ initialState).1.error = none ∧
    (handleFile handleFileSelect ⟨"txt", 0⟩ ⟨false, none⟩ initialState).2.selectedFile
      = some ⟨"txt", 0⟩ ∧
    (handleClassify echoFileNameEnv
      (handleFile handleFileSelect ⟨"txt", 0⟩ ⟨false, none⟩ initialState).2).result
      = JSON.string "txt" := by
  refine ⟨by decide, by decide, by decide, by decide, by decide, ?_⟩
  rfl

/-- C2: a file larger than 10,485,760 bytes gets a non-null error whatever its name; a file
whose computed lower-case extension is `.txt` or `.pdf` gets `null` exactly when its size is at
most 10,485,760 bytes, and otherwise the size error, which names the limit as `10MB`. -/
theorem validateFile_size_limit (file : File) :
    (file.size > 10485760 → validateFile file ≠ none) ∧
    (fileExtension file = ".txt" ∨ fileExtension file = ".pdf" →
      (validateFile file = none ↔ file.size ≤ 10485760) ∧
      (file.size > 10485760 →
        validateFile file = some "Arquivo muito grande. Tamanho máximo: 10MB")) := by
  have hmsg : "Arquivo muito grande. Tamanho máximo: " ++ toString (MAX_FILE_SIZE / 1024 / 1024)
      ++ "MB" = "Arquivo muito grande. Tamanho máximo: 10MB" := by decide
  have hmax : MAX_FILE_SIZE = 10485760 := by decide
  constructor
  · intro hsize
    unfold validateFile
    split
    · simp
    · rw [if_pos (by omega)]
      simp
  · intro hext
    have hacc : ACCEPTED_TYPES.contains (fileExtension file) = true := by
      rcases hext with h | h <;> simp [ACCEPTED_TYPES, h]
    constructor
    · unfold validateFile
      simp only [hacc, Bool.not_true, Bool.false_eq_true, if_false]
      constructor
      · intro h
        by_contra hgt
        rw [if_pos (by omega)] at h
        simp at h
      · intro hle
        rw [if_neg (by omega)]
    · intro hsize
      unfold validateFile
      simp only [hacc, Bool.not_true, Bool.false_eq_true, if_false]
      rw [if_pos (by omega), hmsg]

theorem validateFile_size_limit_witness :
    validateFile ⟨"x.png", 10485761⟩ ≠ none ∧
    (validateFile ⟨"Report.final.PDF", 10485760⟩ = none ↔ 10485760 ≤ 10485760) ∧
    validateFile ⟨"notes.txt", 10485761⟩
      = some "Arquivo muito grande. Tamanho máximo: 10MB" :=
  ⟨(validateFile_size_limit ⟨"x.png", 10485761⟩).1 (by decide),
   ((validateFile_size_limit ⟨"Report.final.PDF", 10485760⟩).2 (by decide)).1,
   ((validateFile_size_limit ⟨"notes.txt", 10485761⟩).2 (by decide)).2 (by decide)⟩

/-! ## Frame lemmas for the handlers -/

theorem handleClassifyTry_frame (env : Env) (s0 s : AppState) :
    (handleClassifyTry env s0 s).activeTab = s.activeTab ∧
    (handleClassifyTry env s0 s).selectedFile = s.selectedFile ∧
    (handleClassifyTry env s0 s).emailText = s.emailText := by
  unfold handleClassifyTry handleClassifyCatch
  split
  · split
    · simp
    · split <;> simp
  · split
    · simp
    · split <;> simp

theorem handleClassify_frame (env : Env) (s : AppState) :
    (handleClassify env s).activeTab = s.activeTab ∧
    (handleClassify env s).selectedFile = s.selectedFile ∧
    (handleClassify env s).emailText = s.emailText := by
  have h := handleClassifyTry_frame env s
    { s with error := none, result := JSON.null, isLoading := true }
  simpa [handleClassify] using h

theorem handleFile_parent {σ : Type} (onFileSelect : File → σ → σ) (file : File)
    (u : UploaderState) (parent : σ) :
    (handleFile onFileSelect file u parent).2 = parent ∨
    (handleFile onFileSelect file u parent).2 = onFileSelect file parent := by
  by_cases h : truthy (validateFile file) = true
  · left; simp [handleFile, h]
  · right; simp [handleFile, h]

theorem step_emailText (s : AppState) (e : Event) :
    (step s e).emailText = s.emailText ∨ (step s e).emailText = "" ∨
    ∃ candidate, e = Event.change candidate ∧ jsLength candidate ≤ MAX_CHARACTERS ∧
      (step s e).emailText = candidate := by
  cases e with
  | drop u files =>
    left
    simp only [step, handleDrop]
    split
    · rfl
    · split
      · rcases handleFile_parent handleFileSelect _ { u with isDragging := false } s with h | h
        · rw [h]
        · rw [h]; rfl
      · rfl
  | fileInput u files =>
    left
    simp only [step, handleFileInput]
    split
    · rcases handleFile_parent handleFileSelect _ u s with h | h
      · rw [h]
      · rw [h]; rfl
    · rfl
  | clearFile => left; rfl
  | change candidate =>
    by_cases h : jsLength candidate ≤ MAX_CHARACTERS
    · right; right
      exact ⟨candidate, rfl, h, by simp [step, EmailTextInput.handleChange, h, handleTextChange]⟩
    · left
      simp [step, EmailTextInput.handleChange, h]
  | tabSwitch v => left; rfl
  | classify env => left; exact (handleClassify_frame env s).2.2
  | newClassification => right; left; rfl

theorem run_emailText_le (events : List Event) (s : AppState)
    (h : jsLength s.emailText ≤ MAX_CHARACTERS) :
    jsLength (run s events).emailText ≤ MAX_CHARACTERS := by
  induction events generalizing s with
  | nil => exact h
  | cons e es ih =>
    have hstep : jsLength (step s e).emailText ≤ MAX_CHARACTERS := by
      rcases step_emailText s e with h1 | h1 | ⟨c, _, hc, h1⟩
      · rw [h1]; exact h
      · rw [h1]; decide
      · rw [h1]; exact hc
    exact ih (step s e) hstep

/-- C3: from the initial state, after any sequence of events (text changes with arbitrary
candidates, file drops and picks, file clears, tab switches, classify actions with any network
behaviour, resets) the length of `emailText` is at most 800, in UTF-16 code units and so also in
characters; a change event replaces `emailText` by its candidate when the candidate's length is
at most 800 and leaves `emailText` as it was when the candidate is longer. -/
theorem emailText_length_le_800 (events : List Event) (s : AppState) (candidate : String) :
    jsLength (run initialState events).emailText ≤ 800 ∧
    (run initialState events).emailText.length ≤ 800 ∧
    (step s (Event.change candidate)).emailText
      = if jsLength candidate ≤ 800 then candidate else s.emailText := by
  have h := run_emailText_le events initialState (by decide)
  have h800 : MAX_CHARACTERS = 800 := rfl
  rw [h800] at h
  refine ⟨h, le_trans (length_le_jsLength _) h, ?_⟩
  by_cases hc : jsLength candidate ≤ 800
  · simp [step, EmailTextInput.handleChange, h800, hc, handleTextChange]
  · simp [step, EmailTextInput.handleChange, h800, hc]

/-- C4: the submit button is enabled (its `disabled` prop is false) exactly when no request is
in flight and either the upload tab is active with a file selected or the text tab is active
with a trimmed text of length above zero; it is disabled whenever `isLoading` is true. -/
theorem classify_button_enabled_iff (s : AppState) :
    (classifyButtonDisabled s = false ↔
      s.isLoading = false ∧
        ((s.activeTab = Tab.upload ∧ s.selectedFile ≠ none) ∨
         (s.activeTab = Tab.text ∧ jsLength (jsTrim s.emailText) > 0))) ∧
    (s.isLoading = true → classifyButtonDisabled s = true) := by
  constructor
  · unfold classifyButtonDisabled canClassify
    cases htab : s.activeTab <;> cases hl : s.isLoading <;> simp
  · intro h
    simp [classifyButtonDisabled, h]

theorem classify_button_enabled_iff_witness :
    classifyButtonDisabled { initialState with selectedFile := some ⟨"notes.txt", 200⟩,
                                                isLoading := true } = true ∧
    classifyButtonDisabled { initialState with selectedFile := some ⟨"notes.txt", 200⟩ }
      = false :=
  ⟨(classify_button_enabled_iff { initialState with selectedFile := some ⟨"notes.txt", 200⟩,
                                                    isLoading := true }).2 rfl,
   (classify_button_enabled_iff
      { initialState with selectedFile := some ⟨"notes.txt", 200⟩ }).1.mpr
      ⟨rfl, Or.inl ⟨rfl, by decide⟩⟩⟩

/-! ## What `handleClassify` leaves in `result` and `error` -/

theorem handleClassify_isLoading (env : Env) (s : AppState) :
    (handleClassify env s).isLoading = false := rfl

theorem handleClassify_no_request (env : Env) (s : AppState)
    (h : requestIssued env s = none) :
    (handleClassify env s).result = JSON.null ∧
    ((handleClassify env s).error
        = some "Por favor, selecione um arquivo antes de classificar." ∨
     (handleClassify env s).error
        = some "Por favor, insira o texto do email antes de classificar.") := by
  unfold requestIssued at h
  unfold handleClassify handleClassifyTry
  cases htab : s.activeTab with
  | upload =>
    cases hfile : s.selectedFile with
    | none => simp
    | some f => simp [htab, hfile] at h
  | text =>
    by_cases ht : jsTrim s.emailText = ""
    · simp [ht]
    · simp [htab, ht] at h

theorem handleClassify_rejected (env : Env) (s : AppState) (req : Request) (err : Thrown)
    (h : requestIssued env s = some req) (hf : env.fetch req = Except.error err) :
    (handleClassify env s).result = JSON.null ∧
    (handleClassify env s).error
      = some (jsOr err.message
          "Erro ao classificar email. Verifique sua conexão e tente novamente.") := by
  unfold requestIssued at h
  unfold handleClassify handleClassifyTry
  cases htab : s.activeTab with
  | upload =>
    cases hfile : s.selectedFile with
    | none => simp [htab, hfile] at h
    | some f =>
      simp only [htab, hfile, Option.some.injEq] at h
      subst h
      simp [classifyEmailFromFile, hf, handleClassifyCatch]
  | text =>
    by_cases ht : jsTrim s.emailText = ""
    · simp [htab, ht] at h
    · simp only [htab, ht, if_false, Option.some.injEq] at h
      subst h
      simp [ht, classifyEmailFromText, hf, handleClassifyCatch]

theorem handleClassify_not_ok (env : Env) (s : AppState) (req : Request) (response : Response)
    (h : requestIssued env s = some req) (hf : env.fetch req = Except.ok response)
    (hok : response.ok = false) :
    (handleClassify env s).result = JSON.null ∧
    (handleClassify env s).error
      = some (jsOr ("Erro ao classificar email: " ++ response.statusText)
          "Erro ao classificar email. Verifique sua conexão e tente novamente.") := by
  unfold requestIssued at h
  unfold handleClassify handleClassifyTry
  cases htab : s.activeTab with
  | upload =>
    cases hfile : s.selectedFile with
    | none => simp [htab, hfile] at h
    | some f =>
      simp only [htab, hfile, Option.some.injEq] at h
      subst h
      simp [classifyEmailFromFile, hf, hok, handleClassifyCatch]
  | text =>
    by_cases ht : jsTrim s.emailText = ""
    · simp [htab, ht] at h
    · simp only [htab, ht, if_false, Option.some.injEq] at h
      subst h
      simp [ht, classifyEmailFromText, hf, hok, handleClassifyCatch]

theorem handleClassify_body_rejected (env : Env) (s : AppState) (req : Request)
    (response : Response) (err : Thrown)
    (h : requestIssued env s = some req) (hf : env.fetch req = Except.ok response)
    (hok : response.ok = true) (hj : response.json = Except.error err) :
    (handleClassify env s).result = JSON.null ∧
    (handleClassify env s).error
      = some (jsOr err.message
          "Erro ao classificar email. Verifique sua conexão e tente novamente.") := by
  unfold requestIssued at h
  unfold handleClassify handleClassifyTry
  cases htab : s.activeTab with
  | upload =>
    cases hfile : s.selectedFile with
    | none => simp [htab, hfile] at h
    | some f =>
      simp only [htab, hfile, Option.some.injEq] at h
      subst h
      simp [classifyEmailFromFile, hf, hok, hj, handleClassifyCatch]
  | text =>
    by_cases ht : jsTrim s.emailText = ""
    · simp [htab, ht] at h
    · simp only [htab, ht, if_false, Option.some.injEq] at h
      subst h
      simp [ht, classifyEmailFromText, hf, hok, hj, handleClassifyCatch]

theorem handleClassify_resolved (env : Env) (s : AppState) (req : Request)
    (response : Response) (data : JSON)
    (h : requestIssued env s = some req) (hf : env.fetch req = Except.ok response)
    (hok : response.ok = true) (hj : response.json = Except.ok data) :
    (handleClassify env s).result = data ∧ (handleClassify env s).error = none := by
  unfold requestIssued at h
  unfold handleClassify handleClassifyTry
  cases htab : s.activeTab with
  | upload =>
    cases hfile : s.selectedFile with
    | none => simp [htab, hfile] at h
    | some f =>
      simp only [htab, hfile, Option.some.injEq] at h
      subst h
      simp [classifyEmailFromFile, hf, hok, hj]
  | text =>
    by_cases ht : jsTrim s.emailText = ""
    · simp [htab, ht] at h
    · simp only [htab, ht, if_false, Option.some.injEq] at h
      subst h
      simp [ht, classifyEmailFromText, hf, hok, hj]

/-- After `handleClassify`, either `error` is set and `result` is `null`, or `error` is `null`
and `result` is the parsed body of a successful response to the request issued. -/
theorem handleClassify_result_error (env : Env) (s : AppState) :
    ((handleClassify env s).result = JSON.null ∧ (handleClassify env s).error ≠ none) ∨
    ((handleClassify env s).error = none ∧
      ∃ req response, requestIssued env s = some req ∧ env.fetch req = Except.ok response ∧
        response.ok = true ∧ response.json = Except.ok (handleClassify env s).result) := by
  cases hreq : requestIssued env s with
  | none =>
    left
    obtain ⟨h1, h2⟩ := handleClassify_no_request env s hreq
    refine ⟨h1, ?_⟩
    rcases h2 with h2 | h2 <;> simp [h2]
  | some req =>
    cases hf : env.fetch req with
    | error err =>
      left
      obtain ⟨h1, h2⟩ := handleClassify_rejected env s req err hreq hf
      exact ⟨h1, by simp [h2]⟩
    | ok response =>
      cases hok : response.ok with
      | false =>
        left
        obtain ⟨h1, h2⟩ := handleClassify_not_ok env s req response hreq hf hok
        exact ⟨h1, by simp [h2]⟩
      | true =>
        cases hj : response.json with
        | error err =>
          left
          obtain ⟨h1, h2⟩ := handleClassify_body_rejected env s req response err hreq hf hok hj
          exact ⟨h1, by simp [h2]⟩
        | ok data =>
          right
          obtain ⟨h1, h2⟩ := handleClassify_resolved env s req response data hreq hf hok hj
          exact ⟨h2, req, response, rfl, hf, hok, by rw [h1, hj]⟩

theorem status_message_ne_empty (t : String) : ("Erro ao classificar email: " ++ t) ≠ "" := by
  intro h
  have hlen := congrArg String.length h
  rw [String.length_append] at hlen
  have h27 : "Erro ao classificar email: ".length = 27 := by decide
  have h0 : "".length = 0 := by decide
  omega

/-! ## The outcome of a classify action -/

/-- C5 as stated fails: with a file selected and a backend that answers status 200 with the
JSON body `null`, `handleClassify` completes with `isLoading` false and with both `result` and
`error` null, so neither of the two is set. -/
theorem handleClassify_null_body_sets_neither :
    (handleClassify (constantEnv (Except.ok (okResponse JSON.null)))
      fileSelectedState).isLoading = false ∧
    (handleClassify (constantEnv (Except.ok (okResponse JSON.null)))
      fileSelectedState).result = JSON.null ∧
    (handleClassify (constantEnv (Except.ok (okResponse JSON.null)))
      fileSelectedState).error = none :=
  ⟨rfl, rfl, rfl⟩

/-- C5 amended: for every state and every behaviour of the network, when `handleClassify`
completes `isLoading` is false and `result` and `error` are never both non-null; exactly one of
them is non-null unless the client returned the parsed JSON value `null` (a request was issued,
the response was a success and its body parsed to `null`), in which case both stay null. -/
theorem handleClassify_exactly_one (env : Env) (s : AppState) :
    (handleClassify env s).isLoading = false ∧
    ¬ ((handleClassify env s).result ≠ JSON.null ∧ (handleClassify env s).error ≠ none) ∧
    ((((handleClassify env s).result ≠ JSON.null ∧ (handleClassify env s).error = none) ∨
      ((handleClassify env s).result = JSON.null ∧ (handleClassify env s).error ≠ none)) ↔
     ¬ ∃ req response, requestIssued env s = some req ∧ env.fetch req = Except.ok response ∧
         response.ok = true ∧ response.json = Except.ok JSON.null) := by
  refine ⟨rfl, ?_, ?_⟩
  · rintro ⟨hr, he⟩
    rcases handleClassify_result_error env s with ⟨h1, _⟩ | ⟨h1, _⟩
    · exact hr h1
    · exact he h1
  · constructor
    · rintro hone ⟨req, response, hreq, hf, hok, hj⟩
      obtain ⟨h1, h2⟩ := handleClassify_resolved env s req response JSON.null hreq hf hok hj
      rcases hone with ⟨hr, _⟩ | ⟨_, he⟩
      · exact hr h1
      · exact he h2
    · intro hno
      rcases handleClassify_result_error env s with ⟨h1, h2⟩ | ⟨h1, req, response, hreq, hf, hok, hj⟩
      · exact Or.inr ⟨h1, h2⟩
      · left
        refine ⟨?_, h1⟩
        intro hnull
        exact hno ⟨req, response, hreq, hf, hok, by rw [hj, hnull]⟩

/-- C10 as stated fails: with a text entered and a `fetch` that rejects with the error
`Failed to fetch`, the error state after `handleClassify` is that error's own message, not the
generic connectivity message. -/
theorem network_failure_shows_its_own_message :
    (handleClassify (constantEnv (Except.error ⟨"Failed to fetch", none⟩))
      textEnteredState).error = some "Failed to fetch" ∧
    (handleClassify (constantEnv (Except.error ⟨"Failed to fetch", none⟩))
      textEnteredState).error
      ≠ some "Erro ao classificar email. Verifique sua conexão e tente novamente." :=
  ⟨by decide, by decide⟩

/-- C10 amended: when `handleClassify` issues its request and `fetch` rejects with an error
value, the error state is that value's message if the message is non-empty and the generic
connectivity message if it is empty; when the response is a non-success one, the error state is
`Erro ao classificar email: ` followed by the response's `statusText`, whatever the numeric
status code. -/
theorem handleClassify_error_message (env : Env) (s : AppState) (req : Request)
    (hreq : requestIssued env s = some req) :
    (∀ err, env.fetch req = Except.error err →
      (handleClassify env s).error
        = some (if err.message = "" then
                  "Erro ao classificar email. Verifique sua conexão e tente novamente."
                else err.message)) ∧
    (∀ response, env.fetch req = Except.ok response → response.ok = false →
      (handleClassify env s).error
        = some ("Erro ao classificar email: " ++ response.statusText)) := by
  constructor
  · intro err hf
    rw [(handleClassify_rejected env s req err hreq hf).2]
    by_cases hm : err.message = "" <;> simp [jsOr, hm]
  · intro response hf hok
    rw [(handleClassify_not_ok env s req response hreq hf hok).2]
    simp [jsOr, status_message_ne_empty]

theorem handleClassify_error_message_witness :
    (handleClassify (constantEnv (Except.error ⟨"", none⟩)) textEnteredState).error
      = some "Erro ao classificar email. Verifique sua conexão e tente novamente." ∧
    (handleClassify (constantEnv (Except.ok (failedResponse 500 "Internal Server Error")))
      textEnteredState).error
      = some "Erro ao classificar email: Internal Server Error" :=
  ⟨(handleClassify_error_message (constantEnv (Except.error ⟨"", none⟩)) textEnteredState
      { url := "http://localhost:8000/api/classify", method := "POST",
        headers := [("Content-Type", "application/json")],
        body := Body.json (JSON.object [("text", JSON.string "Oi")]) } rfl).1 ⟨"", none⟩ rfl,
   (handleClassify_error_message
      (constantEnv (Except.ok (failedResponse 500 "Internal Server Error"))) textEnteredState
      { url := "http://localhost:8000/api/classify", method := "POST",
        headers := [("Content-Type", "application/json")],
        body := Body.json (JSON.object [("text", JSON.string "Oi")]) } rfl).2
      (failedResponse 500 "Internal Server Error") rfl rfl⟩

/-! ## Reset, tab switch, exclusivity, counter colour -/

/-- C6 as stated fails: after typing on the text tab and getting a classification, the reset
`handleNewClassification` leaves the text tab active, so the mode is not the initial upload
tab. -/
theorem handleNewClassification_keeps_text_tab :
    (handleClassify (constantEnv (Except.ok (okResponse sampleClassification)))
      textEnteredState).result = sampleClassification ∧
    (handleNewClassification
      (handleClassify (constantEnv (Except.ok (okResponse sampleClassification)))
        textEnteredState)).activeTab = Tab.text ∧
    (handleNewClassification
      (handleClassify (constantEnv (Except.ok (okResponse sampleClassification)))
        textEnteredState)).activeTab ≠ initialState.activeTab :=
  ⟨rfl, rfl, by decide⟩

/-- C6 amended: for every state, `handleNewClassification` yields `selectedFile` null,
`emailText` empty, `result` null and `error` null, and leaves `activeTab` and `isLoading` as
they were: the outcome is the initial state but for those two slots. -/
theorem handleNewClassification_clears (s : AppState) :
    (handleNewClassification s).selectedFile = none ∧
    (handleNewClassification s).emailText = "" ∧
    (handleNewClassification s).result = JSON.null ∧
    (handleNewClassification s).error = none ∧
    (handleNewClassification s).activeTab = s.activeTab ∧
    (handleNewClassification s).isLoading = s.isLoading ∧
    handleNewClassification s
      = { initialState with activeTab := s.activeTab, isLoading := s.isLoading } :=
  ⟨rfl, rfl, rfl, rfl, rfl, rfl, rfl⟩

/-- C7 as stated fails: after a classify action that failed on the network, `isLoading` is false
and the error banner is shown; switching to the text tab leaves `error` set and the banner
shown. -/
theorem onValueChange_keeps_error :
    (handleClassify (constantEnv (Except.error ⟨"Failed to fetch", none⟩))
      fileSelectedState).isLoading = false ∧
    errorBannerShown (handleClassify (constantEnv (Except.error ⟨"Failed to fetch", none⟩))
      fileSelectedState) = true ∧
    (onValueChange Tab.text
      (handleClassify (constantEnv (Except.error ⟨"Failed to fetch", none⟩))
        fileSelectedState)).error = some "Failed to fetch" ∧
    errorBannerShown (onValueChange Tab.text
      (handleClassify (constantEnv (Except.error ⟨"Failed to fetch", none⟩))
        fileSelectedState)) = true :=
  ⟨rfl, by decide, by decide, by decide⟩

/-- C7 amended: for every state, switching the submission mode sets `activeTab` to the chosen
tab and leaves `selectedFile`, `emailText`, `isLoading`, `result` and `error` unchanged; an
error banner is shown after the switch exactly when it was shown before. -/
theorem onValueChange_frame (v : Tab) (s : AppState) :
    (onValueChange v s).activeTab = v ∧
    (onValueChange v s).selectedFile = s.selectedFile ∧
    (onValueChange v s).emailText = s.emailText ∧
    (onValueChange v s).isLoading = s.isLoading ∧
    (onValueChange v s).result = s.result ∧
    (onValueChange v s).error = s.error ∧
    errorBannerShown (onValueChange v s) = errorBannerShown s :=
  ⟨rfl, rfl, rfl, rfl, rfl, rfl, rfl⟩

theorem applyAction_exclusive (s : AppState) (a : Action)
    (h : s.result = JSON.null ∨ s.error = none) :
    (applyAction s a).result = JSON.null ∨ (applyAction s a).error = none := by
  cases a with
  | fileSelect file => left; rfl
  | fileClear => left; rfl
  | textChange text => left; rfl
  | tabSwitch v => exact h
  | classify env =>
    rcases handleClassify_result_error env s with ⟨h1, _⟩ | ⟨h1, _⟩
    · exact Or.inl h1
    · exact Or.inr h1
  | newClassification => left; rfl

theorem runActions_exclusive (actions : List Action) (s : AppState)
    (h : s.result = JSON.null ∨ s.error = none) :
    (runActions s actions).result = JSON.null ∨ (runActions s actions).error = none := by
  induction actions generalizing s with
  | nil => exact h
  | cons a as ih => exact ih (applyAction s a) (applyAction_exclusive s a h)

/-- C8: from the initial state, after any sequence of `handleFileSelect`, `handleFileClear`,
`handleTextChange`, tab switch, `handleClassify` (with any network behaviour) and
`handleNewClassification`, `result` and `error` are never both non-null; and each of
`handleFileSelect`, `handleFileClear` and `handleTextChange` leaves both null, from any
state. -/
theorem result_error_exclusive (actions : List Action) (s : AppState) (file : File)
    (text : String) :
    ¬ ((runActions initialState actions).result ≠ JSON.null ∧
       (runActions initialState actions).error ≠ none) ∧
    ((handleFileSelect file s).result = JSON.null ∧ (handleFileSelect file s).error = none) ∧
    ((handleFileClear s).result = JSON.null ∧ (handleFileClear s).error = none) ∧
    ((handleTextChange text s).result = JSON.null ∧ (handleTextChange text s).error = none) := by
  refine ⟨?_, ⟨rfl, rfl⟩, ⟨rfl, rfl⟩, ⟨rfl, rfl⟩⟩
  rintro ⟨hr, he⟩
  rcases runActions_exclusive actions initialState (Or.inl rfl) with h | h
  · exact hr h
  · exact he h

/-- C9 as stated fails: at a count of 720 the counter has the default (muted) colour, not the
warning (amber) one. -/
theorem counter_at_720_is_muted :
    counterColorClasses 720 = ["text-muted-foreground"] ∧
    "text-amber-600" ∉ counterColorClasses 720 :=
  ⟨by decide, by decide⟩

/-- C9 amended: the counter has the default (muted) colour when the count is at most 720, the
warning (amber) colour when it is from 721 to 799, and the limit (destructive) colour when it is
800 or more; exactly one of the three colour classes is applied for each count. -/
theorem counterColorClasses_eq (n : Nat) :
    counterColorClasses n =
      if n ≤ 720 then ["text-muted-foreground"]
      else if n ≤ 799 then ["text-amber-600"]
      else ["text-destructive"] := by
  have h800 : MAX_CHARACTERS = 800 := rfl
  unfold counterColorClasses isAtLimit isNearLimit
  rw [h800]
  by_cases h1 : n ≤ 720
  · have a : ¬ n ≥ 800 := by omega
    have b : ¬ 10 * n > 9 * 800 := by omega
    simp [h1, a, b]
  · by_cases h2 : n ≤ 799
    · have a : ¬ n ≥ 800 := by omega
      have b : 10 * n > 9 * 800 := by omega
      simp [h1, h2, a, b]
    · have a : n ≥ 800 := by omega
      have b : 10 * n > 9 * 800 := by omega
      simp [h1, h2, a, b]

/-! ## Rejected files never reach the parent -/

/-- A file whose computed extension is neither `.txt` nor `.pdf` gets the unsupported-type
message whatever its size; `handleFile` puts the message in the inline error and leaves the
parent state untouched, so `onFileSelect` is not called. -/
theorem handleFile_of_bad_extension {σ : Type} (onFileSelect : File → σ → σ) (file : File)
    (u : UploaderState) (parent : σ)
    (h : fileExtension file ≠ ".txt" ∧ fileExtension file ≠ ".pdf") :
    validateFile file = some "Tipo de arquivo não suportado. Use apenas .txt ou .pdf" ∧
    (handleFile onFileSelect file u parent).1.error
      = some "Tipo de arquivo não suportado. Use apenas .txt ou .pdf" ∧
    (handleFile onFileSelect file u parent).2 = parent := by
  have hv := validateFile_of_bad_extension file h
  have ht : truthy (some "Tipo de arquivo não suportado. Use apenas .txt ou .pdf") = true := by
    decide
  refine ⟨hv, ?_, ?_⟩ <;> simp [handleFile, hv, ht]

/-- A name `stem.ext`, with no dot in `ext` and `ext` in lower case different from `txt` and
`pdf`, is rejected with the unsupported-type message whatever the size. -/
theorem validateFile_of_dotted_name (stem ext : String) (size : Nat) (h : '.' ∉ ext.data)
    (htxt : jsToLowerCase ext ≠ "txt") (hpdf : jsToLowerCase ext ≠ "pdf") :
    validateFile ⟨stem ++ "." ++ ext, size⟩
      = some "Tipo de arquivo não suportado. Use apenas .txt ou .pdf" := by
  apply validateFile_of_bad_extension
  rw [fileExtension_of_dot stem ext size h]
  have key : ∀ t : String, "." ++ jsToLowerCase ext = "." ++ t → jsToLowerCase ext = t := by
    intro t ht
    have hd := congrArg String.data ht
    simp only [String.data_append] at hd
    exact String.ext (List.append_cancel_left hd)
  exact ⟨fun e => htxt (key "txt" e), fun e => hpdf (key "pdf" e)⟩

end EmailClassifier
